import Mathlib

/-!
Verification development for the SimpleRPyC remote-object-reference protocol.

The definitions below are a shallow embedding of the Python sources:
  - simplerpc/common/serialization.py  (serialize / deserialize / _convert_proxies)
  - simplerpc/server/executor.py       (ClientExecutor and its handlers)
  - simplerpc/server/server.py         (RPCServer.handler token gate)
  - simplerpc/client/proxy.py          (free function materialize, is_proxy)

Python values are modelled by the inductive `PyVal`.  Mutable dictionaries are
modelled as association lists; machine floats are not modelled (no claim in
scope depends on them); `getattr` is modelled over explicit attribute tables
carried by the `obj` constructor; callables are drawn from the closed enum
`PyFunc`, applied by `applyFunc`.  The msgpack wire format is modelled at the
level of the msgpack data model (`WireVal`) rather than at byte level: `packb`
becomes `pack`, `unpackb` becomes `unpack`.  Key facts of that data model used
here, all observable in the repository tests: tuples pack as arrays and
unpack as lists; strings, byte buffers, scalars and numpy arrays (via the
msgpack_numpy extension) round-trip exactly; slices, proxies and arbitrary
objects are not packable and raise a TypeError.
Error strings elide Python quoting (str(KeyError(k)) is modelled without the
surrounding quotes for string keys; for integer keys it is the decimal repr,
modelled exactly as `Nat.repr`).
-/

/-- Decidable equality of `Except` results, so that concrete statements about
fallible operations can be settled by evaluation. -/
instance {ε α : Type} [DecidableEq ε] [DecidableEq α] : DecidableEq (Except ε α) :=
  fun a b =>
    match a, b with
    | .ok x, .ok y =>
        if h : x = y then .isTrue (by rw [h])
        else .isFalse (fun c => h (Except.ok.inj c))
    | .error e, .error f =>
        if h : e = f then .isTrue (by rw [h])
        else .isFalse (fun c => h (Except.error.inj c))
    | .ok _, .error _ => .isFalse (fun c => Except.noConfusion c)
    | .error _, .ok _ => .isFalse (fun c => Except.noConfusion c)

/-- Scalar values usable as dictionary keys in the model. -/
inductive PyKey where
  | none
  | bool (b : Bool)
  | int (n : Int)
  | str (s : String)
  deriving DecidableEq, Repr

/-- Closed enum of the callables used in this development, standing in for
Python function objects (lambdas / builtins appearing in the tests). -/
inductive PyFunc where
  | ident
  | square
  | neg
  deriving DecidableEq, Repr

mutual
/-- Model of Python values exchanged with / held by the RPC system. -/
inductive PyVal where
  | none
  | bool (b : Bool)
  | int (n : Int)
  | str (s : String)
  | bytes (bs : List UInt8)
  | list (xs : PyList)
  | tuple (xs : PyList)
  | dict (es : PyDict)
  | ndarray (data : List Int)
  | pyslice (start stop step : Option Int)
  | proxy (objId : Nat)
  | obj (cls : String) (attrs : StrDict)
  | func (f : PyFunc)
  deriving DecidableEq, Repr

/-- A list of Python values (spine made explicit for structural recursion). -/
inductive PyList where
  | nil
  | cons (v : PyVal) (rest : PyList)
  deriving DecidableEq, Repr

/-- A Python dict with scalar keys, as an explicit association list. -/
inductive PyDict where
  | nil
  | cons (k : PyKey) (v : PyVal) (rest : PyDict)
  deriving DecidableEq, Repr

/-- A Python dict with string keys (kwargs, globals, attribute tables). -/
inductive StrDict where
  | nil
  | cons (k : String) (v : PyVal) (rest : StrDict)
  deriving DecidableEq, Repr
end

/-- Build a `PyList` from a Lean list literal. -/
def pl : List PyVal → PyList
  | [] => .nil
  | v :: vs => .cons v (pl vs)

/-- Build a `PyDict` from a Lean list literal. -/
def pd : List (PyKey × PyVal) → PyDict
  | [] => .nil
  | (k, v) :: es => .cons k v (pd es)

/-- Build a `StrDict` from a Lean list literal. -/
def sd : List (String × PyVal) → StrDict
  | [] => .nil
  | (k, v) :: es => .cons k v (sd es)

def PyList.length : PyList → Nat
  | .nil => 0
  | .cons _ rest => rest.length + 1

def PyList.get? : PyList → Nat → Option PyVal
  | .nil, _ => Option.none
  | .cons v _, 0 => some v
  | .cons _ rest, n + 1 => rest.get? n

def PyDict.lookup : PyDict → PyKey → Option PyVal
  | .nil, _ => Option.none
  | .cons k v rest, k2 => if k = k2 then some v else rest.lookup k2

def StrDict.lookup : StrDict → String → Option PyVal
  | .nil, _ => Option.none
  | .cons k v rest, k2 => if k = k2 then some v else rest.lookup k2

/-- Assignment `d[k] = v` on a string-keyed dict. -/
def StrDict.set : StrDict → String → PyVal → StrDict
  | .nil, k, v => .cons k v .nil
  | .cons k0 v0 rest, k, v =>
      if k0 = k then .cons k0 v rest else .cons k0 v0 (rest.set k v)

/-- Python `callable(obj)`: in the model only `func` values are callable. -/
def pyCallable : PyVal → Bool
  | .func _ => true
  | _ => false

/-- Apply one of the modelled callables to positional and keyword arguments.
`ident` is `lambda x: x`, `square` is `lambda x: x * x`, `neg` is
`lambda x: -x`; each raises a TypeError on any other argument pattern
(in particular `square` on a dict, since `dict * dict` is unsupported). -/
def applyFunc : PyFunc → PyList → StrDict → Except String PyVal
  | .ident, .cons v .nil, .nil => .ok v
  | .ident, _, _ => .error "TypeError: ident takes exactly one positional argument"
  | .square, .cons (.int n) .nil, .nil => .ok (.int (n * n))
  | .square, _, _ => .error "TypeError: unsupported operand type for squaring"
  | .neg, .cons (.int n) .nil, .nil => .ok (.int (-n))
  | .neg, _, _ => .error "TypeError: bad operand type for unary minus"

/-- Python call `f(*args, **kwargs)`. -/
def pyCall : PyVal → PyList → StrDict → Except String PyVal
  | .func f, args, kwargs => applyFunc f args kwargs
  | _, _, _ => .error "TypeError: object is not callable"

/-- Python `getattr(obj, name)`, modelled over the explicit attribute table of
`obj` values.  Builtin attributes of primitive values are not modelled: on
them the lookup raises AttributeError like any missing attribute. -/
def pyGetattr : PyVal → String → Except String PyVal
  | .obj cls attrs, name =>
      match attrs.lookup name with
      | some v => .ok v
      | Option.none =>
          .error ("AttributeError: " ++ cls ++ " object has no attribute " ++ name)
  | _, name => .error ("AttributeError: object has no attribute " ++ name)

/-- View a wire value as a dict key when it is hashable, per Python. -/
def pyKeyOf : PyVal → Option PyKey
  | .none => some .none
  | .bool b => some (.bool b)
  | .int n => some (.int n)
  | .str s => some (.str s)
  | _ => Option.none

/-- Translate a (possibly negative) Python index into a list offset. -/
def pyIndex (len : Nat) (n : Int) : Option Nat :=
  let m := if n < 0 then n + len else n
  if 0 ≤ m ∧ m < (len : Int) then some m.toNat else Option.none

/-- Python `obj[key]`.  Sequences index by integers (with negative-index
wraparound), dicts look keys up by equality.  Slicing by genuine slice
objects is not modelled: the wire never delivers a slice object to the
server (range-slice descriptors arrive as plain dicts, see serialization). -/
def pyGetitem : PyVal → PyVal → Except String PyVal
  | .list xs, .int n =>
      match pyIndex xs.length n with
      | some i =>
          match xs.get? i with
          | some v => .ok v
          | Option.none => .error "IndexError: list index out of range"
      | Option.none => .error "IndexError: list index out of range"
  | .tuple xs, .int n =>
      match pyIndex xs.length n with
      | some i =>
          match xs.get? i with
          | some v => .ok v
          | Option.none => .error "IndexError: tuple index out of range"
      | Option.none => .error "IndexError: tuple index out of range"
  | .str s, .int n =>
      match pyIndex s.length n with
      | some i =>
          match s.data.get? i with
          | some c => .ok (.str (String.mk [c]))
          | Option.none => .error "IndexError: string index out of range"
      | Option.none => .error "IndexError: string index out of range"
  | .ndarray d, .int n =>
      match pyIndex d.length n with
      | some i =>
          match d.get? i with
          | some x => .ok (.int x)
          | Option.none => .error "IndexError: index out of bounds"
      | Option.none => .error "IndexError: index out of bounds"
  | .dict es, key =>
      match pyKeyOf key with
      | some k =>
          match es.lookup k with
          | some v => .ok v
          | Option.none => .error "KeyError: key not found"
      | Option.none => .error "TypeError: unhashable type"
  | _, _ => .error "TypeError: object is not subscriptable"

/-- Python `s.split(".")` on the character list, by structural recursion
(so the kernel can evaluate it on concrete inputs). -/
def splitDotChars : List Char → List String
  | [] => [""]
  | c :: cs =>
      let r := splitDotChars cs
      if c = '.' then "" :: r
      else
        match r with
        | [] => [String.mk [c]]
        | s :: rest => String.mk (c :: s.data) :: rest

/-- Python `s.split(".")`. -/
def splitDot (s : String) : List String := splitDotChars s.data

/-- Python `path.split(".")[-1]`. -/
def lastSegment (p : String) : String := (splitDot p).getLastD ""

/-- Python `s.rstrip("()")`: drop trailing parenthesis characters. -/
def rstripParens (s : String) : String :=
  String.mk ((s.data.reverse.dropWhile fun c => c == '(' || c == ')').reverse)

/-- Python `eval(path, globals)` as used by the executor, modelled for dotted-name
expressions (the only shape of path the client ever sends): resolve the
first segment in the globals namespace, then chain `getattr`. -/
def evalPath (globals : StrDict) (path : String) : Except String PyVal :=
  match splitDot path with
  | [] => .error "SyntaxError: invalid syntax"
  | root :: rest =>
      match globals.lookup root with
      | some v => rest.foldlM pyGetattr v
      | Option.none => .error ("NameError: name " ++ root ++ " is not defined")

/-! ## The msgpack wire layer (serialization.py) -/

mutual
/-- The msgpack data model: what `packb` encodes and `unpackb` decodes.
`ndarrayExt` is the msgpack_numpy extension payload for numpy arrays. -/
inductive WireVal where
  | nil
  | bool (b : Bool)
  | int (n : Int)
  | str (s : String)
  | bin (bs : List UInt8)
  | arr (xs : WireList)
  | map (es : WireDict)
  | ndarrayExt (data : List Int)
  deriving DecidableEq, Repr

inductive WireList where
  | nil
  | cons (v : WireVal) (rest : WireList)
  deriving DecidableEq, Repr

inductive WireDict where
  | nil
  | cons (k : PyKey) (v : WireVal) (rest : WireDict)
  deriving DecidableEq, Repr
end

mutual
/-- The function `_convert_proxies` from serialization.py: replace `RPCProxy` values by
`{"__rpc_proxy__": True, "obj_id": id}` and `slice` values by
`{"__slice__": True, "start": ..., "stop": ..., "step": ...}`, walking
dict values and list/tuple items structurally (preserving list vs tuple). -/
def convertProxies : PyVal → PyVal
  | .proxy i =>
      .dict (pd [(.str "__rpc_proxy__", .bool true), (.str "obj_id", .int i)])
  | .pyslice a b c =>
      .dict (pd [(.str "__slice__", .bool true),
                 (.str "start", a.elim .none .int),
                 (.str "stop", b.elim .none .int),
                 (.str "step", c.elim .none .int)])
  | .dict es => .dict (convertProxiesDict es)
  | .list xs => .list (convertProxiesList xs)
  | .tuple xs => .tuple (convertProxiesList xs)
  | v => v

def convertProxiesList : PyList → PyList
  | .nil => .nil
  | .cons x xs => .cons (convertProxies x) (convertProxiesList xs)

def convertProxiesDict : PyDict → PyDict
  | .nil => .nil
  | .cons k v es => .cons k (convertProxies v) (convertProxiesDict es)
end

mutual
/-- The call `msgpack.packb(-, use_bin_type=True)` with the msgpack_numpy patch,
modelled into the msgpack data model.  Lists and tuples both encode as
arrays; dict values encode pointwise; numpy arrays use the extension;
slices, proxies, generic objects and functions are not packable. -/
def pack : PyVal → Except String WireVal
  | .none => .ok .nil
  | .bool b => .ok (.bool b)
  | .int n => .ok (.int n)
  | .str s => .ok (.str s)
  | .bytes bs => .ok (.bin bs)
  | .list xs => (packList xs).map .arr
  | .tuple xs => (packList xs).map .arr
  | .dict es => (packDict es).map .map
  | .ndarray d => .ok (.ndarrayExt d)
  | .pyslice _ _ _ => .error "TypeError: can not serialize object"
  | .proxy _ => .error "TypeError: can not serialize object"
  | .obj _ _ => .error "TypeError: can not serialize object"
  | .func _ => .error "TypeError: can not serialize object"

def packList : PyList → Except String WireList
  | .nil => .ok .nil
  | .cons x xs =>
      match pack x, packList xs with
      | .ok w, .ok ws => .ok (.cons w ws)
      | .error e, _ => .error e
      | _, .error e => .error e

def packDict : PyDict → Except String WireDict
  | .nil => .ok .nil
  | .cons k v es =>
      match pack v, packDict es with
      | .ok w, .ok ws => .ok (.cons k w ws)
      | .error e, _ => .error e
      | _, .error e => .error e
end

mutual
/-- The call `msgpack.unpackb(-, raw=False, strict_map_key=False)`: arrays decode as
lists, maps as dicts, the numpy extension as an array; scalars decode to
themselves. -/
def unpack : WireVal → PyVal
  | .nil => .none
  | .bool b => .bool b
  | .int n => .int n
  | .str s => .str s
  | .bin bs => .bytes bs
  | .arr xs => .list (unpackList xs)
  | .map es => .dict (unpackDict es)
  | .ndarrayExt d => .ndarray d

def unpackList : WireList → PyList
  | .nil => .nil
  | .cons w ws => .cons (unpack w) (unpackList ws)

def unpackDict : WireDict → PyDict
  | .nil => .nil
  | .cons k w ws => .cons k (unpack w) (unpackDict ws)
end

/-- The function `serialize(obj)`: convert proxies/slices, then pack.  The byte string on
the wire is abstracted as the packed `WireVal`. -/
def serialize (v : PyVal) : Except String WireVal := pack (convertProxies v)

/-- The function `deserialize(data)`. -/
def deserialize (w : WireVal) : PyVal := unpack w

/-- The observable effect of one client-to-server (or server-to-client) hop:
`deserialize (serialize v)`. -/
def roundtrip (v : PyVal) : Except String PyVal := (serialize v).map deserialize

mutual
/-- Values the wire hop reproduces exactly: scalars, strings, byte buffers,
numpy arrays, and lists/dicts thereof.  Tuples are excluded (they come back
as lists), as are proxies, slices, generic objects and functions. -/
def wireSafe : PyVal → Bool
  | .none => true
  | .bool _ => true
  | .int _ => true
  | .str _ => true
  | .bytes _ => true
  | .ndarray _ => true
  | .list xs => wireSafeList xs
  | .dict es => wireSafeDict es
  | .tuple _ => false
  | .pyslice _ _ _ => false
  | .proxy _ => false
  | .obj _ _ => false
  | .func _ => false

def wireSafeList : PyList → Bool
  | .nil => true
  | .cons x xs => wireSafe x && wireSafeList xs

def wireSafeDict : PyDict → Bool
  | .nil => true
  | .cons _ v es => wireSafe v && wireSafeDict es
end

/-! ## The execution context (server/executor.py) -/

/-- State from `ClientExecutor.__init__`: per-connection globals namespace, object
registry, and monotone id counter. -/
structure ClientExecutor where
  globals : StrDict
  objects : List (Nat × PyVal)
  next_obj_id : Nat
  deriving DecidableEq, Repr

/-- The freshly constructed context: `{"__builtins__": ...}`, empty registry,
counter at zero. -/
def executorInit : ClientExecutor :=
  { globals := sd [("__builtins__", .obj "module" .nil)]
    objects := []
    next_obj_id := 0 }

/-- Method `ClientExecutor._store_object`: hand out the current counter value as the
id, bump the counter, record the object. -/
def ClientExecutor.store_object (ex : ClientExecutor) (v : PyVal) :
    Nat × ClientExecutor :=
  (ex.next_obj_id,
   { ex with
     objects := (ex.next_obj_id, v) :: ex.objects
     next_obj_id := ex.next_obj_id + 1 })

/-- Lookup `self.objects[obj_id]`: registry lookup; a missing id raises `KeyError`,
whose `str` is the decimal repr of the id. -/
def ClientExecutor.resolveObj (ex : ClientExecutor) (i : Nat) :
    Except String PyVal :=
  match ex.objects.lookup i with
  | some v => .ok v
  | Option.none => .error (Nat.repr i)

/-- Wire responses of the executor:
`{"type": "success", "obj_id": ...}`, `{"type": "success", "value": ...}`
or `{"type": "error", "error": ..., "traceback": ...?}`. -/
inductive Resp where
  | success (objId : Nat)
  | value (v : PyVal)
  | error (err : String) (traceback : Option String)
  deriving DecidableEq, Repr

/-- A request dict.  Each field models the presence or absence of the
corresponding key; `objId` models `msg.get("obj_id")`, which conflates an
absent key with an explicit `None` (the client sends `None` before a first
reference exists). -/
structure Msg where
  type : Option String
  module : Option String
  path : Option String
  objId : Option Nat
  attr : Option String
  args : Option PyList
  kwargs : Option StrDict
  key : Option PyVal
  deriving DecidableEq, Repr

/-- Subscript `msg[field]`: a missing key raises `KeyError`. -/
def getReq {α : Type} (field : Option α) (name : String) : Except String α :=
  match field with
  | some v => .ok v
  | Option.none => .error ("KeyError: " ++ name)

/-- The request dict `{"type": t}` with no further keys. -/
def mkMsg (t : String) : Msg :=
  ⟨some t, Option.none, Option.none, Option.none, Option.none, Option.none,
   Option.none, Option.none⟩

/-- A `getattr` request as the client proxy builds it. -/
def getattrMsg (path : String) (objId : Option Nat) (attr : String) : Msg :=
  ⟨some "getattr", Option.none, some path, objId, some attr, Option.none,
   Option.none, Option.none⟩

/-- A `call` request as the client proxy builds it. -/
def callMsg (path : String) (objId : Option Nat) (args : PyList)
    (kwargs : StrDict) : Msg :=
  ⟨some "call", Option.none, some path, objId, Option.none, some args,
   some kwargs, Option.none⟩

/-- A `getitem` request as the client proxy builds it. -/
def getitemMsg (objId : Option Nat) (key : PyVal) : Msg :=
  ⟨some "getitem", Option.none, Option.none, objId, Option.none, Option.none,
   Option.none, some key⟩

/-- A `materialize` request as the client proxy builds it. -/
def materializeMsg (objId : Option Nat) : Msg :=
  ⟨some "materialize", Option.none, Option.none, objId, Option.none,
   Option.none, Option.none, Option.none⟩

/-- An `import_module` request as the client patcher builds it. -/
def importMsg (module : String) : Msg :=
  ⟨some "import_module", some module, Option.none, Option.none, Option.none,
   Option.none, Option.none, Option.none⟩

/-- Method `ClientExecutor._import_module`.  The available modules are a parameter
`modules` keyed by full dotted name, each mapped to its top-level module
object; `exec("import m", globals)` binds the first segment of the name in
the globals namespace, then `globals[m.split(".")[0]]` is stored. -/
def ClientExecutor.import_module (modules : StrDict) (ex : ClientExecutor)
    (name : String) : Except String (Resp × ClientExecutor) :=
  match modules.lookup name with
  | Option.none => .error ("ModuleNotFoundError: No module named " ++ name)
  | some topMod =>
      let root := (splitDot name).headD ""
      let ex1 := { ex with globals := ex.globals.set root topMod }
      match ex1.globals.lookup root with
      | Option.none => .error ("KeyError: " ++ root)
      | some module =>
          let (obj_id, ex2) := ex1.store_object module
          .ok (.success obj_id, ex2)

/-- The target-resolution step of `_getattr` (`if obj_id is not None:` use
the registry, `else:` evaluate the path against globals). -/
def ClientExecutor.resolveTarget (ex : ClientExecutor) (objId : Option Nat)
    (path : String) : Except String PyVal :=
  match objId with
  | some i => ex.resolveObj i
  | Option.none => evalPath ex.globals path

/-- Method `ClientExecutor._getattr`: resolve the target, `getattr`, store. -/
def ClientExecutor.getattrH (ex : ClientExecutor) (path : String)
    (objId : Option Nat) (attr : String) : Except String (Resp × ClientExecutor) :=
  match ex.resolveTarget objId path with
  | .error e => .error e
  | .ok obj =>
      match pyGetattr obj attr with
      | .error e => .error e
      | .ok result =>
          let (result_id, ex1) := ex.store_object result
          .ok (.success result_id, ex1)

/-- The callee-resolution step of `_call`: with an id, the registered object
itself when callable, else `path.split(".")[-1].rstrip("()")` looked up as a
method on it; without an id, the path evaluated against globals. -/
def ClientExecutor.resolveCallee (ex : ClientExecutor) (objId : Option Nat)
    (path : String) : Except String PyVal :=
  match objId with
  | some i =>
      match ex.resolveObj i with
      | Except.error e => Except.error e
      | Except.ok obj =>
          if pyCallable obj then Except.ok obj
          else pyGetattr obj (rstripParens (lastSegment path))
  | Option.none => evalPath ex.globals path

/-- Method `ClientExecutor._call`: resolve the callee, call it on the argument
structures exactly as they arrived in the message, store the result. -/
def ClientExecutor.callH (ex : ClientExecutor) (path : String)
    (objId : Option Nat) (args : PyList) (kwargs : StrDict) :
    Except String (Resp × ClientExecutor) :=
  match ex.resolveCallee objId path with
  | .error e => .error e
  | .ok func =>
      match pyCall func args kwargs with
      | .error e => .error e
      | .ok result =>
          let (result_id, ex1) := ex.store_object result
          .ok (.success result_id, ex1)

/-- Lookup `self.objects[msg["obj_id"]]` for the handlers that address the registry
only: a missing `obj_id` key (or an explicit `None`) raises `KeyError`. -/
def ClientExecutor.resolveReqId (ex : ClientExecutor) (objId : Option Nat) :
    Except String PyVal :=
  match objId with
  | some i => ex.resolveObj i
  | Option.none => .error "KeyError: obj_id"

/-- Method `ClientExecutor._getitem`: resolve the id, index, store. -/
def ClientExecutor.getitemH (ex : ClientExecutor) (objId : Option Nat)
    (key : PyVal) : Except String (Resp × ClientExecutor) :=
  match ex.resolveReqId objId with
  | .error e => .error e
  | .ok obj =>
      match pyGetitem obj key with
      | .error e => .error e
      | .ok result =>
          let (result_id, ex1) := ex.store_object result
          .ok (.success result_id, ex1)

/-- Method `ClientExecutor._materialize`: resolve the id, run `serialize` purely as a
serializability check (its result is discarded, any failure propagates),
then answer with the live value itself. -/
def ClientExecutor.materializeH (ex : ClientExecutor) (objId : Option Nat) :
    Except String (Resp × ClientExecutor) :=
  match ex.resolveReqId objId with
  | .error e => .error e
  | .ok obj =>
      match serialize obj with
      | .error e => .error e
      | .ok _ => .ok (.value obj, ex)

/-- The known request types, in dispatch order. -/
def knownTypes : List String :=
  ["import_module", "getattr", "call", "getitem", "materialize"]

/-- The `try` body of `ClientExecutor.handle_message`: read `msg["type"]` and
dispatch; an unrecognized type answers an error response (without raising);
a raised exception propagates as `Except.error`. -/
def dispatch (modules : StrDict) (ex : ClientExecutor) (msg : Msg) :
    Except String (Resp × ClientExecutor) :=
  match getReq msg.type "type" with
  | .error e => .error e
  | .ok msg_type =>
      if msg_type = "import_module" then
        match getReq msg.module "module" with
        | .error e => .error e
        | .ok m => ex.import_module modules m
      else if msg_type = "getattr" then
        match getReq msg.path "path", getReq msg.attr "attr" with
        | .ok p, .ok a => ex.getattrH p msg.objId a
        | .error e, _ => .error e
        | _, .error e => .error e
      else if msg_type = "call" then
        match getReq msg.path "path", getReq msg.args "args",
              getReq msg.kwargs "kwargs" with
        | .ok p, .ok args, .ok kwargs => ex.callH p msg.objId args kwargs
        | .error e, _, _ => .error e
        | _, .error e, _ => .error e
        | _, _, .error e => .error e
      else if msg_type = "getitem" then
        match getReq msg.key "key" with
        | .error e => .error e
        | .ok key => ex.getitemH msg.objId key
      else if msg_type = "materialize" then
        ex.materializeH msg.objId
      else
        .ok (.error ("Unknown message type: " ++ msg_type) Option.none, ex)

/-- Trace text `traceback.format_exc()`, abstracted: some non-empty trace text built
from the exception message. -/
def formatExc (e : String) : String :=
  "Traceback (most recent call last): " ++ e

/-- Method `ClientExecutor.handle_message`: run the dispatcher, catching any raised
exception into an error response that carries the message and trace text;
the context is left as it was at the point of the raise. -/
def ClientExecutor.handle_message (modules : StrDict) (ex : ClientExecutor)
    (msg : Msg) : Resp × ClientExecutor :=
  match dispatch modules ex msg with
  | .ok r => r
  | .error e => (.error e (some (formatExc e)), ex)

/-- Feed a list of requests through one context, collecting the responses
(the `async for` loop of `RPCServer.handler`). -/
def runMessages (modules : StrDict) :
    ClientExecutor → List Msg → List Resp × ClientExecutor
  | ex, [] => ([], ex)
  | ex, m :: ms =>
      let (r, ex1) := ClientExecutor.handle_message modules ex m
      let (rs, exF) := runMessages modules ex1 ms
      (r :: rs, exF)

/-- The reference ids issued in a list of responses. -/
def successIds : List Resp → List Nat
  | [] => []
  | .success i :: rs => i :: successIds rs
  | _ :: rs => successIds rs

/-- Registry sanity: every registered id is below the counter. -/
def goodState (ex : ClientExecutor) : Prop :=
  ∀ p ∈ ex.objects, p.1 < ex.next_obj_id

/-! ## The connection gate (server/server.py) -/

/-- What one run of `RPCServer.handler` did, as far as the claims observe it:
the close code used for an early rejection, the application-level responses
sent, and whether an executor was registered for the connection. -/
structure HandlerTrace where
  closeCode : Option Nat
  sent : List Resp
  executorCreated : Bool
  deriving DecidableEq, Repr

/-- Method `RPCServer.handler`: compare the token extracted from the request URI
(`None` when absent) against the server token; on mismatch close with code
1008 having sent nothing and created no executor; on match create a fresh
executor and serve the incoming requests in order. -/
def handlerRun (modules : StrDict) (serverToken : String)
    (clientToken : Option String) (incoming : List Msg) : HandlerTrace :=
  if clientToken ≠ some serverToken then
    { closeCode := some 1008, sent := [], executorCreated := false }
  else
    { closeCode := Option.none
      sent := (runMessages modules executorInit incoming).1
      executorCreated := true }

/-! ## The client-side free function materialize (client/proxy.py) -/

/-- A value in the client process: either an `RPCProxy` (recording its access
path and reference id) or a plain local object. -/
inductive ClientVal where
  | proxyRef (path : String) (objId : Option Nat)
  | plain (v : PyVal)
  deriving DecidableEq, Repr

/-- The free function `materialize`: a non-proxy argument is returned as is,
with no request sent; a proxy triggers exactly one `materialize` request,
whose value response is returned and whose error response raises
`RemoteException`.  The result pairs the outcome with the list of requests
sent to the server (modelled by its executor state). -/
def clientMaterialize (modules : StrDict) (server : ClientExecutor) :
    ClientVal → Except String PyVal × List Msg
  | .plain v => (.ok v, [])
  | .proxyRef _ i =>
      let msg := materializeMsg i
      match (ClientExecutor.handle_message modules server msg).1 with
      | .value v => (.ok v, [msg])
      | .error e _ => (.error ("RemoteException: " ++ e), [msg])
      | .success _ => (.error "KeyError: value", [msg])

/-! ## Concrete states used in the closed theorems below -/

/-- The wire form of an `RPCProxy` argument after one serialize/deserialize
hop: the reference marker `{"__rpc_proxy__": True, "obj_id": i}`. -/
def markerDict (i : Nat) : PyVal :=
  .dict (pd [(.str "__rpc_proxy__", .bool true), (.str "obj_id", .int i)])

/-- A context holding the value `5` under id 0 and the identity function
under id 1. -/
def exC1 : ClientExecutor :=
  { globals := executorInit.globals
    objects := [(0, .int 5), (1, .func .ident)]
    next_obj_id := 2 }

/-- A context holding, under id 0, a non-callable object whose attributes
`f` and `g` are two different functions. -/
def exC7 : ClientExecutor :=
  { globals := executorInit.globals
    objects := [(0, .obj "X" (sd [("f", .func .square), ("g", .func .neg)]))]
    next_obj_id := 1 }

mutual
theorem convertProxies_of_wireSafe :
    ∀ (v : PyVal), wireSafe v = true → convertProxies v = v
  | .none, _ => rfl
  | .bool _, _ => rfl
  | .int _, _ => rfl
  | .str _, _ => rfl
  | .bytes _, _ => rfl
  | .ndarray _, _ => rfl
  | .list xs, h => by
      have hx := convertProxiesList_of_wireSafe xs (by simpa [wireSafe] using h)
      simp [convertProxies, hx]
  | .dict es, h => by
      have hx := convertProxiesDict_of_wireSafe es (by simpa [wireSafe] using h)
      simp [convertProxies, hx]
  | .tuple _, h => by simp [wireSafe] at h
  | .pyslice _ _ _, h => by simp [wireSafe] at h
  | .proxy _, h => by simp [wireSafe] at h
  | .obj _ _, h => by simp [wireSafe] at h
  | .func _, h => by simp [wireSafe] at h

theorem convertProxiesList_of_wireSafe :
    ∀ (xs : PyList), wireSafeList xs = true → convertProxiesList xs = xs
  | .nil, _ => rfl
  | .cons x xs, h => by
      have h1 : wireSafe x = true := by
        have := h; simp [wireSafeList, Bool.and_eq_true] at this; exact this.1
      have h2 : wireSafeList xs = true := by
        have := h; simp [wireSafeList, Bool.and_eq_true] at this; exact this.2
      simp [convertProxiesList, convertProxies_of_wireSafe x h1,
            convertProxiesList_of_wireSafe xs h2]

theorem convertProxiesDict_of_wireSafe :
    ∀ (es : PyDict), wireSafeDict es = true → convertProxiesDict es = es
  | .nil, _ => rfl
  | .cons k v es, h => by
      have h1 : wireSafe v = true := by
        have := h; simp [wireSafeDict, Bool.and_eq_true] at this; exact this.1
      have h2 : wireSafeDict es = true := by
        have := h; simp [wireSafeDict, Bool.and_eq_true] at this; exact this.2
      simp [convertProxiesDict, convertProxies_of_wireSafe v h1,
            convertProxiesDict_of_wireSafe es h2]
end

mutual
theorem pack_unpack_of_wireSafe :
    ∀ (v : PyVal), wireSafe v = true → (pack v).map unpack = Except.ok v
  | .none, _ => rfl
  | .bool _, _ => rfl
  | .int _, _ => rfl
  | .str _, _ => rfl
  | .bytes _, _ => rfl
  | .ndarray _, _ => rfl
  | .list xs, h => by
      have hx := packList_unpack_of_wireSafe xs (by simpa [wireSafe] using h)
      cases hp : packList xs with
      | error e => rw [hp] at hx; simp [Except.map] at hx
      | ok ws =>
          rw [hp] at hx
          simp only [Except.map] at hx
          simp [pack, hp, Except.map, unpack, Except.ok.injEq] at hx ⊢
          exact hx
  | .dict es, h => by
      have hx := packDict_unpack_of_wireSafe es (by simpa [wireSafe] using h)
      cases hp : packDict es with
      | error e => rw [hp] at hx; simp [Except.map] at hx
      | ok ws =>
          rw [hp] at hx
          simp only [Except.map] at hx
          simp [pack, hp, Except.map, unpack, Except.ok.injEq] at hx ⊢
          exact hx
  | .tuple _, h => by simp [wireSafe] at h
  | .pyslice _ _ _, h => by simp [wireSafe] at h
  | .proxy _, h => by simp [wireSafe] at h
  | .obj _ _, h => by simp [wireSafe] at h
  | .func _, h => by simp [wireSafe] at h

theorem packList_unpack_of_wireSafe :
    ∀ (xs : PyList), wireSafeList xs = true →
      (packList xs).map unpackList = Except.ok xs
  | .nil, _ => rfl
  | .cons x xs, h => by
      have h1 : wireSafe x = true := by
        have := h; simp [wireSafeList, Bool.and_eq_true] at this; exact this.1
      have h2 : wireSafeList xs = true := by
        have := h; simp [wireSafeList, Bool.and_eq_true] at this; exact this.2
      have hx := pack_unpack_of_wireSafe x h1
      have hxs := packList_unpack_of_wireSafe xs h2
      cases hp : pack x with
      | error e => rw [hp] at hx; simp [Except.map] at hx
      | ok w =>
          cases hps : packList xs with
          | error e => rw [hps] at hxs; simp [Except.map] at hxs
          | ok ws =>
              rw [hp] at hx; rw [hps] at hxs
              simp only [Except.map] at hx hxs
              simp [packList, hp, hps, Except.map, unpackList,
                    Except.ok.injEq] at hx hxs ⊢
              exact ⟨hx, hxs⟩

theorem packDict_unpack_of_wireSafe :
    ∀ (es : PyDict), wireSafeDict es = true →
      (packDict es).map unpackDict = Except.ok es
  | .nil, _ => rfl
  | .cons k v es, h => by
      have h1 : wireSafe v = true := by
        have := h; simp [wireSafeDict, Bool.and_eq_true] at this; exact this.1
      have h2 : wireSafeDict es = true := by
        have := h; simp [wireSafeDict, Bool.and_eq_true] at this; exact this.2
      have hx := pack_unpack_of_wireSafe v h1
      have hxs := packDict_unpack_of_wireSafe es h2
      cases hp : pack v with
      | error e => rw [hp] at hx; simp [Except.map] at hx
      | ok w =>
          cases hps : packDict es with
          | error e => rw [hps] at hxs; simp [Except.map] at hxs
          | ok ws =>
              rw [hp] at hx; rw [hps] at hxs
              simp only [Except.map] at hx hxs
              simp [packDict, hp, hps, Except.map, unpackDict,
                    Except.ok.injEq] at hx hxs ⊢
              exact ⟨hx, hxs⟩
end

mutual
theorem wireSafe_unpack : ∀ (w : WireVal), wireSafe (unpack w) = true
  | .nil => rfl
  | .bool _ => rfl
  | .int _ => rfl
  | .str _ => rfl
  | .bin _ => rfl
  | .ndarrayExt _ => rfl
  | .arr xs => by simp [unpack, wireSafe, wireSafeList_unpackList xs]
  | .map es => by simp [unpack, wireSafe, wireSafeDict_unpackDict es]

theorem wireSafeList_unpackList : ∀ (ws : WireList), wireSafeList (unpackList ws) = true
  | .nil => rfl
  | .cons w ws => by
      simp [unpackList, wireSafeList, wireSafe_unpack w, wireSafeList_unpackList ws]

theorem wireSafeDict_unpackDict : ∀ (ws : WireDict), wireSafeDict (unpackDict ws) = true
  | .nil => rfl
  | .cons k w ws => by
      simp [unpackDict, wireSafeDict, wireSafe_unpack w, wireSafeDict_unpackDict ws]
end

theorem roundtrip_of_wireSafe (v : PyVal) (h : wireSafe v = true) :
    roundtrip v = Except.ok v := by
  unfold roundtrip serialize deserialize
  rw [convertProxies_of_wireSafe v h]
  exact pack_unpack_of_wireSafe v h

theorem roundtrip_wireSafe (v w : PyVal) (h : roundtrip v = Except.ok w) :
    wireSafe w = true := by
  unfold roundtrip serialize deserialize at h
  cases hp : pack (convertProxies v) with
  | error e => rw [hp] at h; simp [Except.map] at h
  | ok u =>
      rw [hp] at h
      simp only [Except.map, Except.ok.injEq] at h
      rw [← h]
      exact wireSafe_unpack u

theorem roundtrip_idem (v w : PyVal) (h : roundtrip v = Except.ok w) :
    roundtrip w = Except.ok w :=
  roundtrip_of_wireSafe w (roundtrip_wireSafe v w h)

theorem importModule_cases (modules : StrDict) (ex : ClientExecutor) (name : String) :
    (∃ v g, ex.import_module modules name
        = Except.ok (Resp.success ex.next_obj_id,
            ⟨g, (ex.next_obj_id, v) :: ex.objects, ex.next_obj_id + 1⟩)) ∨
    (∃ e, ex.import_module modules name = Except.error e) := by
  unfold ClientExecutor.import_module
  cases hm : modules.lookup name with
  | none => right; exact ⟨_, rfl⟩
  | some topMod =>
      simp only []
      cases hg : (StrDict.set ex.globals ((splitDot name).headD "") topMod).lookup
          ((splitDot name).headD "") with
      | none => right; exact ⟨_, rfl⟩
      | some module =>
          left
          exact ⟨module, ex.globals.set ((splitDot name).headD "") topMod, rfl⟩

theorem getattrH_cases (ex : ClientExecutor) (p : String) (objId : Option Nat)
    (a : String) :
    (∃ v, ex.getattrH p objId a
        = Except.ok (Resp.success ex.next_obj_id,
            ⟨ex.globals, (ex.next_obj_id, v) :: ex.objects, ex.next_obj_id + 1⟩)) ∨
    (∃ e, ex.getattrH p objId a = Except.error e) := by
  unfold ClientExecutor.getattrH
  cases ho : ex.resolveTarget objId p with
  | error e => right; refine ⟨e, ?_⟩; simp
  | ok obj =>
      cases hr : pyGetattr obj a with
      | error e => right; refine ⟨e, ?_⟩; simp [hr]
      | ok result =>
          left; refine ⟨result, ?_⟩; simp [hr, ClientExecutor.store_object]

theorem callH_cases (ex : ClientExecutor) (p : String) (objId : Option Nat)
    (args : PyList) (kwargs : StrDict) :
    (∃ v, ex.callH p objId args kwargs
        = Except.ok (Resp.success ex.next_obj_id,
            ⟨ex.globals, (ex.next_obj_id, v) :: ex.objects, ex.next_obj_id + 1⟩)) ∨
    (∃ e, ex.callH p objId args kwargs = Except.error e) := by
  unfold ClientExecutor.callH
  cases ho : ex.resolveCallee objId p with
  | error e => right; refine ⟨e, ?_⟩; simp
  | ok func =>
      cases hr : pyCall func args kwargs with
      | error e => right; refine ⟨e, ?_⟩; simp [hr]
      | ok result =>
          left; refine ⟨result, ?_⟩; simp [hr, ClientExecutor.store_object]

theorem getitemH_cases (ex : ClientExecutor) (objId : Option Nat) (key : PyVal) :
    (∃ v, ex.getitemH objId key
        = Except.ok (Resp.success ex.next_obj_id,
            ⟨ex.globals, (ex.next_obj_id, v) :: ex.objects, ex.next_obj_id + 1⟩)) ∨
    (∃ e, ex.getitemH objId key = Except.error e) := by
  unfold ClientExecutor.getitemH
  cases ho : ex.resolveReqId objId with
  | error e => right; refine ⟨e, ?_⟩; simp
  | ok obj =>
      cases hr : pyGetitem obj key with
      | error e => right; refine ⟨e, ?_⟩; simp [hr]
      | ok result =>
          left; refine ⟨result, ?_⟩; simp [hr, ClientExecutor.store_object]

theorem materializeH_cases (ex : ClientExecutor) (objId : Option Nat) :
    (∃ v, ex.materializeH objId = Except.ok (Resp.value v, ex)) ∨
    (∃ e, ex.materializeH objId = Except.error e) := by
  unfold ClientExecutor.materializeH
  cases ho : ex.resolveReqId objId with
  | error e => right; refine ⟨e, ?_⟩; simp
  | ok obj =>
      cases hs : serialize obj with
      | error e => right; refine ⟨e, ?_⟩; simp [hs]
      | ok w => left; refine ⟨obj, ?_⟩; simp [hs]

theorem handle_cases (modules : StrDict) (ex : ClientExecutor) (msg : Msg) :
    (∃ v g, ClientExecutor.handle_message modules ex msg
        = (Resp.success ex.next_obj_id,
            ⟨g, (ex.next_obj_id, v) :: ex.objects, ex.next_obj_id + 1⟩)) ∨
    (∃ v, ClientExecutor.handle_message modules ex msg = (Resp.value v, ex)) ∨
    (∃ e tb, ClientExecutor.handle_message modules ex msg
        = (Resp.error e tb, ex)) := by
  unfold ClientExecutor.handle_message
  cases hd : dispatch modules ex msg with
  | error e => right; right; exact ⟨e, some (formatExc e), rfl⟩
  | ok r =>
      unfold dispatch at hd
      cases ht : msg.type with
      | none => rw [ht] at hd; exact absurd hd (by simp [getReq])
      | some t =>
          rw [ht] at hd
          simp only [getReq] at hd
          by_cases h1 : t = "import_module"
          · rw [if_pos h1] at hd
            cases hm : msg.module with
            | none => rw [hm] at hd; exact absurd hd (by simp [getReq])
            | some m =>
                rw [hm] at hd; simp only [getReq] at hd
                rcases importModule_cases modules ex m with ⟨v, g, he⟩ | ⟨e, he⟩
                · rw [he] at hd
                  left; exact ⟨v, g, (Except.ok.inj hd).symm⟩
                · rw [he] at hd; exact absurd hd (by simp)
          rw [if_neg h1] at hd
          by_cases h2 : t = "getattr"
          · rw [if_pos h2] at hd
            cases hp : msg.path with
            | none => rw [hp] at hd; exact absurd hd (by simp [getReq])
            | some p =>
                cases ha : msg.attr with
                | none => rw [hp, ha] at hd; exact absurd hd (by simp [getReq])
                | some a =>
                    rw [hp, ha] at hd; simp only [getReq] at hd
                    rcases getattrH_cases ex p msg.objId a with ⟨v, he⟩ | ⟨e, he⟩
                    · rw [he] at hd
                      left; exact ⟨v, ex.globals, (Except.ok.inj hd).symm⟩
                    · rw [he] at hd; exact absurd hd (by simp)
          rw [if_neg h2] at hd
          by_cases h3 : t = "call"
          · rw [if_pos h3] at hd
            cases hp : msg.path with
            | none => rw [hp] at hd; exact absurd hd (by simp [getReq])
            | some p =>
                cases har : msg.args with
                | none => rw [hp, har] at hd; exact absurd hd (by simp [getReq])
                | some args =>
                    cases hkw : msg.kwargs with
                    | none => rw [hp, har, hkw] at hd; exact absurd hd (by simp [getReq])
                    | some kwargs =>
                        rw [hp, har, hkw] at hd; simp only [getReq] at hd
                        rcases callH_cases ex p msg.objId args kwargs with ⟨v, he⟩ | ⟨e, he⟩
                        · rw [he] at hd
                          left; exact ⟨v, ex.globals, (Except.ok.inj hd).symm⟩
                        · rw [he] at hd; exact absurd hd (by simp)
          rw [if_neg h3] at hd
          by_cases h4 : t = "getitem"
          · rw [if_pos h4] at hd
            cases hk : msg.key with
            | none => rw [hk] at hd; exact absurd hd (by simp [getReq])
            | some key =>
                rw [hk] at hd; simp only [getReq] at hd
                rcases getitemH_cases ex msg.objId key with ⟨v, he⟩ | ⟨e, he⟩
                · rw [he] at hd
                  left; exact ⟨v, ex.globals, (Except.ok.inj hd).symm⟩
                · rw [he] at hd; exact absurd hd (by simp)
          rw [if_neg h4] at hd
          by_cases h5 : t = "materialize"
          · rw [if_pos h5] at hd
            rcases materializeH_cases ex msg.objId with ⟨v, he⟩ | ⟨e, he⟩
            · rw [he] at hd
              right; left; exact ⟨v, (Except.ok.inj hd).symm⟩
            · rw [he] at hd; exact absurd hd (by simp)
          rw [if_neg h5] at hd
          right; right
          exact ⟨"Unknown message type: " ++ t, Option.none, (Except.ok.inj hd).symm⟩

theorem goodState_init : goodState executorInit := by
  intro p hp
  simp [executorInit] at hp

theorem goodState_step (ex : ClientExecutor) (v : PyVal) (g : StrDict)
    (h : goodState ex) :
    goodState ⟨g, (ex.next_obj_id, v) :: ex.objects, ex.next_obj_id + 1⟩ := by
  intro p hp
  rcases List.mem_cons.mp hp with h1 | h1
  · rw [h1]; exact Nat.lt_succ_self _
  · exact Nat.lt_succ_of_lt (h p h1)

theorem run_pairwise (modules : StrDict) :
    ∀ (msgs : List Msg) (ex : ClientExecutor), goodState ex →
      List.Pairwise (· < ·) (successIds (runMessages modules ex msgs).1) ∧
      (∀ i ∈ successIds (runMessages modules ex msgs).1, ex.next_obj_id ≤ i) ∧
      goodState (runMessages modules ex msgs).2 := by
  intro msgs
  induction msgs with
  | nil =>
      intro ex hex
      refine ⟨by simp [runMessages, successIds], by simp [runMessages, successIds], ?_⟩
      simpa [runMessages] using hex
  | cons m ms ih =>
      intro ex hex
      rcases handle_cases modules ex m with ⟨v, g, hm⟩ | ⟨v, hm⟩ | ⟨e, tb, hm⟩
      · have hex1 := goodState_step ex v g hex
        obtain ⟨hpw, hge, hgs⟩ := ih _ hex1
        refine ⟨?_, ?_, ?_⟩
        · simp only [runMessages, hm, successIds]
          exact List.pairwise_cons.mpr
            ⟨fun j hj => Nat.lt_of_succ_le (hge j hj), hpw⟩
        · simp only [runMessages, hm, successIds]
          intro i hi
          rcases List.mem_cons.mp hi with h1 | h1
          · rw [h1]
          · exact Nat.le_of_succ_le (hge i h1)
        · simp only [runMessages, hm]
          exact hgs
      · obtain ⟨hpw, hge, hgs⟩ := ih ex hex
        refine ⟨?_, ?_, ?_⟩ <;> simp only [runMessages, hm, successIds]
        · exact hpw
        · exact hge
        · exact hgs
      · obtain ⟨hpw, hge, hgs⟩ := ih ex hex
        refine ⟨?_, ?_, ?_⟩ <;> simp only [runMessages, hm, successIds]
        · exact hpw
        · exact hge
        · exact hgs

theorem toDigitsCore_len_ge (b : Nat) :
    ∀ (fuel n : Nat) (ds : List Char),
      ds.length ≤ (Nat.toDigitsCore b fuel n ds).length := by
  intro fuel
  induction fuel with
  | zero => intro n ds; simp [Nat.toDigitsCore]
  | succ f ih =>
      intro n ds
      simp only [Nat.toDigitsCore]
      split
      · simp
      · calc ds.length ≤ (Nat.digitChar (n % b) :: ds).length := by simp
          _ ≤ _ := ih _ _

theorem toDigitsCore_len_succ (b f n : Nat) (ds : List Char) :
    ds.length + 1 ≤ (Nat.toDigitsCore b (f + 1) n ds).length := by
  simp only [Nat.toDigitsCore]
  split
  · simp
  · have h := toDigitsCore_len_ge b f (n / b) (Nat.digitChar (n % b) :: ds)
    simpa using h

theorem natRepr_ne_empty (n : Nat) : Nat.repr n ≠ "" := by
  intro h
  have h1 := toDigitsCore_len_succ 10 n n []
  have h2 : (Nat.repr n).length = 0 := by rw [h]; rfl
  have h3 : (Nat.repr n).length = (Nat.toDigitsCore 10 (n + 1) n []).length := rfl
  omega

/-- C1: the spec requires nested `__rpc_proxy__` / `__slice__` markers inside
call arguments to be resolved back to live registered values before the
callee runs.  The dispatcher has no such step: evaluating `handle_message`
at a call whose argument is the marker for registered value `5` shows the
callee (the identity function) receives — and the registry then holds — the
marker mapping itself, not the value `5`. -/
theorem claim1_marker_not_resolved :
    ClientExecutor.handle_message .nil exC1
        (callMsg "" (some 1) (pl [markerDict 0]) .nil)
      = (Resp.success 2,
         { exC1 with objects := (2, markerDict 0) :: exC1.objects,
                     next_obj_id := 3 }) ∧
    markerDict 0 ≠ PyVal.int 5 :=
  ⟨by decide, by decide⟩

/-- C2: across any run of requests from a sane context, the issued reference
ids are strictly increasing, each exceeds every id present in the registry
beforehand, and `_store_object` always succeeds (the stored id maps to the
stored value). -/
theorem claim2_fresh_monotonic_ids (modules : StrDict) (ex : ClientExecutor)
    (msgs : List Msg) (h : goodState ex) :
    List.Pairwise (· < ·) (successIds (runMessages modules ex msgs).1) ∧
    (∀ i ∈ successIds (runMessages modules ex msgs).1,
        ∀ p ∈ ex.objects, p.1 < i) ∧
    (∀ (e : ClientExecutor) (v : PyVal),
        ((e.store_object v).2).objects.lookup (e.store_object v).1 = some v) := by
  obtain ⟨hpw, hge, _⟩ := run_pairwise modules msgs ex h
  refine ⟨hpw, ?_, ?_⟩
  · intro i hi p hp
    exact lt_of_lt_of_le (h p hp) (hge i hi)
  · intro e v
    simp [ClientExecutor.store_object, List.lookup]

/-- Witness for C2 at a concrete run from the fresh context. -/
theorem claim2_witness :
    List.Pairwise (· < ·)
      (successIds (runMessages .nil exC1
        [getitemMsg (some 0) (.int 0), materializeMsg (some 0),
         callMsg "" (some 1) (pl [.int 7]) .nil]).1) ∧
    (∀ i ∈ successIds (runMessages .nil exC1
        [getitemMsg (some 0) (.int 0), materializeMsg (some 0),
         callMsg "" (some 1) (pl [.int 7]) .nil]).1,
        ∀ p ∈ exC1.objects, p.1 < i) ∧
    (∀ (e : ClientExecutor) (v : PyVal),
        ((e.store_object v).2).objects.lookup (e.store_object v).1 = some v) :=
  claim2_fresh_monotonic_ids .nil exC1
    [getitemMsg (some 0) (.int 0), materializeMsg (some 0),
     callMsg "" (some 1) (pl [.int 7]) .nil]
    (by intro p hp; simp [exC1] at hp; rcases hp with h | h <;> simp [h, exC1])

/-- C3 fails as stated: a tuple does not round-trip to itself — msgpack
arrays deserialize as lists (the repository test notes this too). -/
theorem claim3_counterexample_tuple :
    roundtrip (PyVal.tuple (pl [PyVal.int 1, PyVal.int 2]))
      = Except.ok (PyVal.list (pl [PyVal.int 1, PyVal.int 2])) ∧
    PyVal.list (pl [PyVal.int 1, PyVal.int 2])
      ≠ PyVal.tuple (pl [PyVal.int 1, PyVal.int 2]) :=
  ⟨by decide, by decide⟩

/-- C3 amended: `deserialize (serialize v) = v` for every tuple-free value
built from primitives, byte buffers, numeric arrays, lists and mappings;
and one successful hop is idempotent — a second serialize/deserialize of
the result reproduces it exactly (tuples included: they come back as
lists, which then round-trip to themselves). -/
theorem claim3_roundtrip_amended (v : PyVal) :
    (wireSafe v = true → roundtrip v = Except.ok v) ∧
    (∀ w, roundtrip v = Except.ok w → roundtrip w = Except.ok w) :=
  ⟨roundtrip_of_wireSafe v, fun w h => roundtrip_idem v w h⟩

/-- Witness for C3 at concrete values: a numeric array round-trips to
itself, and the list produced by round-tripping a tuple is a fixed point. -/
theorem claim3_witness :
    roundtrip (PyVal.ndarray [1, 2, 3]) = Except.ok (PyVal.ndarray [1, 2, 3]) ∧
    roundtrip (PyVal.list (pl [PyVal.int 1]))
      = Except.ok (PyVal.list (pl [PyVal.int 1])) :=
  ⟨(claim3_roundtrip_amended (PyVal.ndarray [1, 2, 3])).1 (by decide),
   (claim3_roundtrip_amended (PyVal.tuple (pl [PyVal.int 1]))).2
     (PyVal.list (pl [PyVal.int 1])) (by decide)⟩

/-- C4: materializing a registered value answers exactly that value (the
very object, hence deep-equal) as a terminal response, but only after
serialization of it succeeds; if serialization fails the handler answers
an error response and no value response is produced.  The context is
unchanged either way. -/
theorem claim4_materialize (modules : StrDict) (ex : ClientExecutor) (i : Nat)
    (v : PyVal) (h : ex.objects.lookup i = some v) :
    ((∃ w, serialize v = Except.ok w) →
        ClientExecutor.handle_message modules ex (materializeMsg (some i))
          = (Resp.value v, ex)) ∧
    (∀ e, serialize v = Except.error e →
        ClientExecutor.handle_message modules ex (materializeMsg (some i))
          = (Resp.error e (some (formatExc e)), ex)) := by
  constructor
  · rintro ⟨w, hw⟩
    simp [ClientExecutor.handle_message, dispatch, getReq, materializeMsg,
          ClientExecutor.materializeH, ClientExecutor.resolveReqId,
          ClientExecutor.resolveObj, h, hw]
  · intro e he
    simp [ClientExecutor.handle_message, dispatch, getReq, materializeMsg,
          ClientExecutor.materializeH, ClientExecutor.resolveReqId,
          ClientExecutor.resolveObj, h, he]

/-- Witness for C4: a serializable value (5) materializes to itself; an
unserializable one (a function object) answers an error, not a value. -/
theorem claim4_witness :
    ClientExecutor.handle_message .nil exC1 (materializeMsg (some 0))
      = (Resp.value (PyVal.int 5), exC1) ∧
    ClientExecutor.handle_message .nil exC1 (materializeMsg (some 1))
      = (Resp.error "TypeError: can not serialize object"
          (some (formatExc "TypeError: can not serialize object")), exC1) :=
  ⟨(claim4_materialize .nil exC1 0 (PyVal.int 5) (by decide)).1
     ⟨WireVal.int 5, by decide⟩,
   (claim4_materialize .nil exC1 1 (PyVal.func .ident) (by decide)).2
     "TypeError: can not serialize object" (by decide)⟩

/-- C5: message handling never escapes to the caller.  An unrecognized
request type answers the protocol-level error response (no traceback)
with the context untouched; any exception raised by a recognized
operation is caught at the dispatcher boundary and turned into an error
response carrying the message and trace text, again with the context left
exactly as it was, so subsequent requests still work. -/
theorem claim5_dispatch_total (modules : StrDict) (ex : ClientExecutor)
    (msg : Msg) :
    (∀ t, msg.type = some t → t ∉ knownTypes →
        ClientExecutor.handle_message modules ex msg
          = (Resp.error ("Unknown message type: " ++ t) Option.none, ex)) ∧
    (∀ e, dispatch modules ex msg = Except.error e →
        ClientExecutor.handle_message modules ex msg
          = (Resp.error e (some (formatExc e)), ex)) := by
  constructor
  · intro t ht hnt
    simp only [knownTypes, List.mem_cons, List.mem_singleton] at hnt
    push_neg at hnt
    obtain ⟨n1, n2, n3, n4, n5⟩ := hnt
    simp [ClientExecutor.handle_message, dispatch, getReq, ht, n1, n2, n3, n4,
          by simpa using n5]
  · intro e he
    simp [ClientExecutor.handle_message, he]

/-- Witness for C5: an unknown type and a raising operation, both on the
fresh context. -/
theorem claim5_witness :
    ClientExecutor.handle_message .nil executorInit (mkMsg "bogus")
      = (Resp.error ("Unknown message type: " ++ "bogus") Option.none,
         executorInit) ∧
    ClientExecutor.handle_message .nil executorInit (getitemMsg (some 0) (.int 0))
      = (Resp.error "0" (some (formatExc "0")), executorInit) :=
  ⟨(claim5_dispatch_total .nil executorInit (mkMsg "bogus")).1 "bogus" rfl
     (by decide),
   (claim5_dispatch_total .nil executorInit (getitemMsg (some 0) (.int 0))).2
     "0" (by decide)⟩

/-- C6: an id never stored in this context always resolves to an error
response with a non-empty message (the `KeyError` text), for `getattr`,
`getitem` and `materialize` alike; no value and no foreign object is ever
answered, and the context is unchanged. -/
theorem claim6_unknown_id_faults (modules : StrDict) (ex : ClientExecutor)
    (i : Nat) (h : ex.objects.lookup i = Option.none) (p a : String)
    (k : PyVal) :
    Nat.repr i ≠ "" ∧
    ClientExecutor.handle_message modules ex (getattrMsg p (some i) a)
      = (Resp.error (Nat.repr i) (some (formatExc (Nat.repr i))), ex) ∧
    ClientExecutor.handle_message modules ex (getitemMsg (some i) k)
      = (Resp.error (Nat.repr i) (some (formatExc (Nat.repr i))), ex) ∧
    ClientExecutor.handle_message modules ex (materializeMsg (some i))
      = (Resp.error (Nat.repr i) (some (formatExc (Nat.repr i))), ex) := by
  refine ⟨natRepr_ne_empty i, ?_, ?_, ?_⟩ <;>
    simp [ClientExecutor.handle_message, dispatch, getReq, getattrMsg,
          getitemMsg, materializeMsg, ClientExecutor.getattrH,
          ClientExecutor.getitemH, ClientExecutor.materializeH,
          ClientExecutor.resolveTarget, ClientExecutor.resolveReqId,
          ClientExecutor.resolveObj, h]

/-- Witness for C6 at id 999, never stored in the fresh context. -/
theorem claim6_witness :
    Nat.repr 999 ≠ "" ∧
    ClientExecutor.handle_message .nil executorInit
        (getattrMsg "os" (some 999) "getcwd")
      = (Resp.error (Nat.repr 999) (some (formatExc (Nat.repr 999))),
         executorInit) ∧
    ClientExecutor.handle_message .nil executorInit
        (getitemMsg (some 999) (.int 0))
      = (Resp.error (Nat.repr 999) (some (formatExc (Nat.repr 999))),
         executorInit) ∧
    ClientExecutor.handle_message .nil executorInit (materializeMsg (some 999))
      = (Resp.error (Nat.repr 999) (some (formatExc (Nat.repr 999))),
         executorInit) :=
  claim6_unknown_id_faults .nil executorInit 999 (by decide) "os" "getcwd"
    (.int 0)

/-- C7 fails as stated: with the same reference id (to a non-callable
object) and the same arguments, two `call` requests that differ only in
their path store different results — the last path segment selects the
method, so the path is not ignored. -/
theorem claim7_counterexample_path_used :
    (ClientExecutor.handle_message .nil exC7
        (callMsg "x.f" (some 0) (pl [PyVal.int 3]) .nil)).2.objects.lookup 1
      = some (PyVal.int 9) ∧
    (ClientExecutor.handle_message .nil exC7
        (callMsg "x.g" (some 0) (pl [PyVal.int 3]) .nil)).2.objects.lookup 1
      = some (PyVal.int (-3)) :=
  ⟨by decide, by decide⟩

/-- C7 amended: when a reference id is supplied, the operation always
targets the registered object and the path is never evaluated against the
context namespace; for `getattr` the path is ignored outright, and for
`call` it is ignored whenever the registered object is callable (only for
a non-callable object does its last dotted segment pick the method name
on that object). -/
theorem claim7_amended_id_precedence (modules : StrDict) (ex : ClientExecutor)
    (i : Nat) :
    (∀ p1 p2 a, ClientExecutor.handle_message modules ex (getattrMsg p1 (some i) a)
        = ClientExecutor.handle_message modules ex (getattrMsg p2 (some i) a)) ∧
    (∀ g1 g2 p args kw,
        (ClientExecutor.handle_message modules { ex with globals := g1 }
            (callMsg p (some i) args kw)).1
          = (ClientExecutor.handle_message modules { ex with globals := g2 }
              (callMsg p (some i) args kw)).1 ∧
        (ClientExecutor.handle_message modules { ex with globals := g1 }
            (callMsg p (some i) args kw)).2.objects
          = (ClientExecutor.handle_message modules { ex with globals := g2 }
              (callMsg p (some i) args kw)).2.objects ∧
        (ClientExecutor.handle_message modules { ex with globals := g1 }
            (callMsg p (some i) args kw)).2.next_obj_id
          = (ClientExecutor.handle_message modules { ex with globals := g2 }
              (callMsg p (some i) args kw)).2.next_obj_id) ∧
    (∀ v p1 p2 args kw, ex.objects.lookup i = some v → pyCallable v = true →
        ClientExecutor.handle_message modules ex (callMsg p1 (some i) args kw)
          = ClientExecutor.handle_message modules ex (callMsg p2 (some i) args kw)) := by
  refine ⟨?_, ?_, ?_⟩
  · intro p1 p2 a
    rfl
  · intro g1 g2 p args kw
    cases h : List.lookup i ex.objects with
    | none =>
        refine ⟨?_, ?_, ?_⟩ <;>
          simp [ClientExecutor.handle_message, dispatch, getReq, callMsg,
                ClientExecutor.callH, ClientExecutor.resolveCallee,
                ClientExecutor.resolveObj, h]
    | some v =>
        by_cases hc : pyCallable v
        · cases hr : pyCall v args kw with
          | error e =>
              refine ⟨?_, ?_, ?_⟩ <;>
                simp [ClientExecutor.handle_message, dispatch, getReq, callMsg,
                      ClientExecutor.callH, ClientExecutor.resolveCallee,
                      ClientExecutor.resolveObj, h, hc, hr]
          | ok w =>
              refine ⟨?_, ?_, ?_⟩ <;>
                simp [ClientExecutor.handle_message, dispatch, getReq, callMsg,
                      ClientExecutor.callH, ClientExecutor.resolveCallee,
                      ClientExecutor.resolveObj, ClientExecutor.store_object,
                      h, hc, hr]
        · cases hg : pyGetattr v (rstripParens (lastSegment p)) with
          | error e =>
              refine ⟨?_, ?_, ?_⟩ <;>
                simp [ClientExecutor.handle_message, dispatch, getReq, callMsg,
                      ClientExecutor.callH, ClientExecutor.resolveCallee,
                      ClientExecutor.resolveObj, h, hc, hg]
          | ok m =>
              cases hr : pyCall m args kw with
              | error e =>
                  refine ⟨?_, ?_, ?_⟩ <;>
                    simp [ClientExecutor.handle_message, dispatch, getReq,
                          callMsg, ClientExecutor.callH,
                          ClientExecutor.resolveCallee,
                          ClientExecutor.resolveObj, h, hc, hg, hr]
              | ok w =>
                  refine ⟨?_, ?_, ?_⟩ <;>
                    simp [ClientExecutor.handle_message, dispatch, getReq,
                          callMsg, ClientExecutor.callH,
                          ClientExecutor.resolveCallee,
                          ClientExecutor.resolveObj,
                          ClientExecutor.store_object, h, hc, hg, hr]
  · intro v p1 p2 args kw h hc
    simp [ClientExecutor.handle_message, dispatch, getReq, callMsg,
          ClientExecutor.callH, ClientExecutor.resolveCallee,
          ClientExecutor.resolveObj, h, hc]

/-- Witness for C7 at concrete inputs: getattr ignores the path under an
id, and call ignores it when the registered object (the identity
function) is callable. -/
theorem claim7_witness :
    ClientExecutor.handle_message .nil exC1 (getattrMsg "a.b" (some 0) "x")
      = ClientExecutor.handle_message .nil exC1 (getattrMsg "c" (some 0) "x") ∧
    ClientExecutor.handle_message .nil exC1
        (callMsg "p" (some 1) (pl [PyVal.int 3]) .nil)
      = ClientExecutor.handle_message .nil exC1
          (callMsg "q" (some 1) (pl [PyVal.int 3]) .nil) :=
  ⟨(claim7_amended_id_precedence .nil exC1 0).1 "a.b" "c" "x",
   (claim7_amended_id_precedence .nil exC1 1).2.2 (PyVal.func .ident) "p" "q"
     (pl [PyVal.int 3]) .nil (by decide) (by decide)⟩

/-- C8: a connection whose presented token differs from the server token is
closed at once with close code 1008; no application-level response is
sent and no execution context is created. -/
theorem claim8_token_gate (modules : StrDict) (st : String)
    (ct : Option String) (incoming : List Msg) (h : ct ≠ some st) :
    handlerRun modules st ct incoming
      = { closeCode := some 1008, sent := [], executorCreated := false } := by
  unfold handlerRun
  rw [if_pos h]

/-- Witness for C8: a wrong token, an absent token. -/
theorem claim8_witness :
    handlerRun .nil "secret" (some "wrong") [mkMsg "bogus"]
      = { closeCode := some 1008, sent := [], executorCreated := false } ∧
    handlerRun .nil "secret" Option.none []
      = { closeCode := some 1008, sent := [], executorCreated := false } :=
  ⟨claim8_token_gate .nil "secret" (some "wrong") [mkMsg "bogus"] (by decide),
   claim8_token_gate .nil "secret" Option.none [] (by decide)⟩

/-- C9: the free function `materialize` returns any non-proxy argument
unchanged with no request sent to the server. -/
theorem claim9_materialize_nonproxy (modules : StrDict)
    (server : ClientExecutor) (v : PyVal) :
    clientMaterialize modules server (ClientVal.plain v) = (Except.ok v, []) :=
  rfl

/-- C10: a request answered by an error response leaves the registry
untouched — the id counter and the id-to-object map are exactly what they
were; results are stored only after the underlying operation succeeded. -/
theorem claim10_error_preserves_registry (modules : StrDict)
    (ex : ClientExecutor) (msg : Msg) (r : Resp) (ex2 : ClientExecutor)
    (e : String) (tb : Option String)
    (h : ClientExecutor.handle_message modules ex msg = (r, ex2))
    (he : r = Resp.error e tb) :
    ex2.objects = ex.objects ∧ ex2.next_obj_id = ex.next_obj_id := by
  rcases handle_cases modules ex msg with ⟨v, g, hm⟩ | ⟨v, hm⟩ | ⟨e0, tb0, hm⟩ <;>
    rw [h] at hm <;> rw [Prod.mk.injEq] at hm <;> obtain ⟨h1, h2⟩ := hm
  · rw [he] at h1; exact absurd h1 (by simp)
  · rw [he] at h1; exact absurd h1 (by simp)
  · rw [h2]; exact ⟨rfl, rfl⟩

/-- Witness for C10: the unknown-type error on the fresh context. -/
theorem claim10_witness :
    executorInit.objects = executorInit.objects ∧
    executorInit.next_obj_id = executorInit.next_obj_id :=
  claim10_error_preserves_registry .nil executorInit (mkMsg "bogus")
    (Resp.error ("Unknown message type: " ++ "bogus") Option.none) executorInit
    ("Unknown message type: " ++ "bogus") Option.none (by decide) rfl
